import Mathlib

/-!
Verification of the tailor-assessment-bot webhook relay.

Python strings are embedded as `List Char` (`PyStr`); the embedding of each
Python function keeps the source's name in camel case.  String-typed helpers
(`pyLower`, `pyTitle`, `pyStrip`, ...) model the corresponding `str` methods on
the ASCII fragment exercised by the program.  External services (Gemini, the
Twilio REST client, the ADK runner) are modelled as oracle parameters: either
an `Except` value (the call's result, or the exception it raises) or, for a
block of downstream sends, the list of messages it produces together with an
optional exception.
-/

/-- Python `str` values, embedded as their character sequences. -/
abbrev PyStr := List Char

/-- Python `str.lower()` (ASCII fragment). -/
def pyLower (s : PyStr) : PyStr := s.map Char.toLower

/-- Python `str.upper()` (ASCII fragment). -/
def pyUpper (s : PyStr) : PyStr := s.map Char.toUpper

/-- Characters of the regex class `\s` (ASCII fragment of Python `re`). -/
def pyIsSpace (c : Char) : Bool :=
  c == ' ' || c == '\t' || c == '\n' || c == '\r' || c == '\x0b' || c == '\x0c'

/-- Python `str.strip()`: whitespace removed from both ends (ASCII fragment). -/
def pyStrip (s : PyStr) : PyStr :=
  ((s.dropWhile pyIsSpace).reverse.dropWhile pyIsSpace).reverse

/-- Value of a digit string, as `int()` reads one (base 10). -/
def digitsToNat (ds : List Char) : Nat :=
  ds.foldl (fun n c => 10 * n + (c.toNat - '0'.toNat)) 0

/-- Python `int(s)`: `some` the value, or `none` when `int` raises
`ValueError` (sign handling and ASCII digits; underscores are not used by the
program's inputs). -/
def pyInt? (s : PyStr) : Option Int :=
  match pyStrip s with
  | [] => none
  | c :: ds =>
    if c = '+' then
      if ds ≠ [] ∧ ds.all Char.isDigit then some (digitsToNat ds : Int) else none
    else if c = '-' then
      if ds ≠ [] ∧ ds.all Char.isDigit then some (-(digitsToNat ds : Int)) else none
    else if (c :: ds).all Char.isDigit then some (digitsToNat (c :: ds) : Int)
    else none

/-- Python `str(i)` for an `int`. -/
def pyIntRepr (i : Int) : PyStr :=
  if i < 0 then '-' :: Nat.toDigits 10 i.natAbs else Nat.toDigits 10 i.toNat

/-- Helper for Python `str.title()`: `prevCased` records whether the previous
character was cased (a letter), which decides word starts. -/
def pyTitleAux (prevCased : Bool) : List Char → List Char
  | [] => []
  | c :: cs =>
    (if c.isAlpha then (if prevCased then c.toLower else c.toUpper) else c)
      :: pyTitleAux c.isAlpha cs

/-- Python `str.title()` (ASCII fragment): each maximal run of letters starts
uppercase and continues lowercase. -/
def pyTitle (s : PyStr) : PyStr := pyTitleAux false s

/- ### agent.py, `GeminiStitchingExpert._parse_fallback_response` -/

/-- The dict returned by `GeminiStitchingExpert.analyze_stitching` and its
fallbacks (`agent.py`): the six assessment fields. -/
structure AssessDict where
  quality_rating : Int
  stitch_type : PyStr
  technical_issues : List PyStr
  improvement_suggestions : List PyStr
  professional_grade : PyStr
  pass_fail : PyStr
deriving DecidableEq, Repr

/-- Characters matched by the regex class `[:\s]` in
`re.search(r'rating[:\s]*(\d+)', ..., re.IGNORECASE)`. -/
def ratingSepChar (c : Char) : Bool := c == ':' || pyIsSpace c

/-- Whether the regex `rating[:\s]*(\d+)` (case-insensitive) matches at the
head of `cs`, and the integer its group captures: the literal `rating`, then a
run of colons/whitespace, then at least one digit (the classes `[:\s]` and
`\d` are disjoint, so the greedy star and backtracking reduce to taking the
maximal separator run and requiring a digit right after it). -/
def ratingMatchAt (cs : List Char) : Option Nat :=
  if (cs.take 6).map Char.toLower = "rating".data then
    let ds := ((cs.drop 6).dropWhile ratingSepChar).takeWhile Char.isDigit
    if ds = [] then none else some (digitsToNat ds)
  else none

/-- The `re.search` of `_parse_fallback_response`: the capture of the leftmost
position where `rating[:\s]*(\d+)` matches, or `none`. -/
def reSearchRating : List Char → Option Nat
  | [] => none
  | c :: cs =>
    match ratingMatchAt (c :: cs) with
    | some n => some n
    | none => reSearchRating cs

/-- `GeminiStitchingExpert._parse_fallback_response` (agent.py lines
141-155). -/
def parseFallbackResponse (responseText : PyStr) : AssessDict :=
  let rating : Int := match reSearchRating responseText with
    | some n => (n : Int)
    | none => 5
  { quality_rating := rating
    stitch_type := "general".data
    technical_issues := ["Could not parse detailed issues".data]
    improvement_suggestions := ["Please refer to the detailed analysis".data]
    professional_grade := "intermediate".data
    pass_fail := if rating < 7 then "fail".data else "pass".data }

/-- The dict returned by `analyze_stitching`'s outer `except` branch
(agent.py lines 130-139). -/
def analyzeStitchingErrorDict : AssessDict :=
  { quality_rating := 5
    stitch_type := "unknown".data
    technical_issues := ["Analysis failed".data]
    improvement_suggestions := ["Please try again with a clearer image".data]
    professional_grade := "unknown".data
    pass_fail := "fail".data }

/-- Result selection of `analyze_stitching` (agent.py lines 117-128): when the
model's response parses as JSON (`parsed = some d`) the parsed dict is
returned as-is; on `JSONDecodeError` the textual fallback parser runs. -/
def analyzeStitchingResult (parsed : Option AssessDict) (responseText : PyStr) :
    AssessDict :=
  match parsed with
  | some d => d
  | none => parseFallbackResponse responseText

/- ### Claim-side reading for C8: "the first integer following the word
'rating'" -/

/-- The first maximal digit run in `cs`, read as an integer. -/
def firstDigitRun : List Char → Option Nat
  | [] => none
  | c :: cs =>
    if c.isDigit then some (digitsToNat ((c :: cs).takeWhile Char.isDigit))
    else firstDigitRun cs

/-- The suffix after the first case-insensitive occurrence of `rating`. -/
def afterFirstRatingWord : List Char → Option (List Char)
  | [] => none
  | c :: cs =>
    if ((c :: cs).take 6).map Char.toLower = "rating".data then
      some ((c :: cs).drop 6)
    else afterFirstRatingWord cs

/-- The claim C8's reading of the fallback parser: the first integer anywhere
after the word `rating` (case-insensitive). -/
def firstIntegerAfterRating (cs : List Char) : Option Nat :=
  (afterFirstRatingWord cs).bind firstDigitRun

/- ### agents/sub_agents/stitching_assessor_agent.py -/

/-- The `task_context` dict carried by a Master-Agent instruction: the keys the
code reads (`skill_to_assess`, `role`, `image_path`), each possibly absent. -/
structure TaskContext where
  skill_to_assess : Option PyStr
  role : Option PyStr
  image_path : Option PyStr
deriving DecidableEq, Repr

/-- Default for `instruction.get('task_context', {})`: the empty dict. -/
def emptyTaskContext : TaskContext := ⟨none, none, none⟩

/-- The dict produced by the sub-agent simulations (pass/fail key is named
`pass_fail_raw` there). -/
structure SubAssessDict where
  quality_rating : Int
  stitch_type : PyStr
  technical_issues : List PyStr
  improvement_suggestions : List PyStr
  professional_grade : PyStr
  pass_fail_raw : PyStr
deriving DecidableEq, Repr

/-- `StitchingAssessorAgent._simulate_enhanced_assessment`
(stitching_assessor_agent.py lines 175-190): `role` defaults to `'Tailor'`. -/
def simulateEnhancedAssessment (taskContext : TaskContext) : SubAssessDict :=
  let role := taskContext.role.getD "Tailor".data
  { quality_rating := 7
    stitch_type := "Running stitch with reinforcement".data
    technical_issues :=
      ["Minor tension variation".data, "Edge finishing could be neater".data]
    improvement_suggestions :=
      ["Use consistent thread tension".data,
       "Practice edge finishing techniques".data]
    professional_grade :=
      if role = "Tailor".data then "Advanced".data else "Intermediate".data
    pass_fail_raw :=
      if role = "Tailor".data then "Pass".data else "Fail".data }

/-- `StitchingAssessorAgent._simulate_basic_assessment`
(stitching_assessor_agent.py lines 192-203). -/
def simulateBasicAssessment (taskContext : TaskContext) : SubAssessDict :=
  let role := taskContext.role.getD "Tailor".data
  { quality_rating := 6
    stitch_type := "Running stitch".data
    technical_issues :=
      ["Slightly uneven tension".data, "Minor spacing inconsistencies".data]
    improvement_suggestions :=
      ["Practice maintaining consistent tension".data,
       "Use guide lines for even spacing".data]
    professional_grade := "Intermediate".data
    pass_fail_raw :=
      if role = "Tailor".data then "Pass".data else "Fail".data }

/- ### Twilio number formatting (agent.py / whatsapp_app.py `send_message`,
and the webhook's inbound strip) -/

/-- The prefixing in `TwilioWhatsAppAPI.send_message`: ensure the recipient
starts with `whatsapp:`. -/
def whatsappPrefixNumber (toNumber : PyStr) : PyStr :=
  if "whatsapp:".data.isPrefixOf toNumber then toNumber
  else "whatsapp:".data ++ toNumber

/-- Fuel-based worker for `replace('whatsapp:', '')`: every step consumes at
least one character, so fuel equal to the length suffices. -/
def replaceWhatsappEmptyAux : Nat → List Char → List Char
  | 0, l => l
  | _ + 1, [] => []
  | fuel + 1, c :: cs =>
    if "whatsapp:".data.isPrefixOf (c :: cs) then
      replaceWhatsappEmptyAux fuel (cs.drop 8)
    else c :: replaceWhatsappEmptyAux fuel cs

/-- The webhook's inbound strip, `from_number.replace('whatsapp:', '')`:
Python `replace` removes every occurrence, scanning left to right and
continuing after each removal. -/
def replaceWhatsappEmpty (l : List Char) : List Char :=
  replaceWhatsappEmptyAux l.length l

/- ### agent.py, `send_assessment_report` -/

/-- `StitchingAssessment` (agent.py lines 29-40), the dataclass handed to
`send_assessment_report`; the timestamp is abstracted to a number. -/
structure StitchingAssessment where
  image_url : PyStr
  quality_rating : Int
  improvement_suggestions : List PyStr
  stitch_type : PyStr
  technical_issues : List PyStr
  professional_grade : PyStr
  pass_fail : PyStr
  timestamp : Nat
  user_phone : PyStr
deriving DecidableEq, Repr

/-- The `rating_emoji` selection of `send_assessment_report`: the first range
of the dict (in insertion order) containing the rating, defaulting to the
yellow circle. -/
def ratingEmojiFor (r : Int) : PyStr :=
  if 1 ≤ r ∧ r < 3 then "🔴".data
  else if 3 ≤ r ∧ r < 5 then "🟠".data
  else if 5 ≤ r ∧ r < 7 then "🟡".data
  else if 7 ≤ r ∧ r < 9 then "🟢".data
  else if 9 ≤ r ∧ r < 11 then "🏆".data
  else "🟡".data

/-- `MultimodalStitchingAgent._format_list_compact` (agent.py lines 373-376). -/
def formatListCompact (items : List PyStr) : PyStr :=
  if items = [] then "None".data
  else List.intercalate " | ".data (items.take 2)

/-- `MultimodalStitchingAgent._get_professional_feedback_short` (agent.py
lines 393-406). -/
def professionalFeedbackShort (r : Int) : PyStr :=
  if 1 ≤ r ∧ r < 3 then "Beginner - Practice basic techniques".data
  else if 3 ≤ r ∧ r < 5 then "Developing - Work on consistency".data
  else if 5 ≤ r ∧ r < 7 then "Intermediate - Good foundation!".data
  else if 7 ≤ r ∧ r < 9 then "Advanced - Professional quality emerging".data
  else if 9 ≤ r ∧ r < 11 then "Expert - Outstanding craftsmanship!".data
  else "Keep practicing!".data

/-- The report string built by `send_assessment_report` (agent.py lines
328-356) and passed to `send_message` (the source file stores its emoji
literals in UTF-8; they are embedded here as the decoded characters). -/
def sendAssessmentReportText (a : StitchingAssessment) : PyStr :=
  let emoji := ratingEmojiFor a.quality_rating
  let passFailEmoji :=
    if pyLower a.pass_fail = "pass".data then "✅".data else "❌".data
  "🧵 STITCHING ASSESSMENT 🧵\n\n".data
    ++ emoji ++ " Rating: ".data ++ pyIntRepr a.quality_rating ++ "/10\n".data
    ++ passFailEmoji ++ " Result: ".data ++ pyUpper a.pass_fail
    ++ "\n📏 Type: ".data ++ pyTitle a.stitch_type
    ++ "\n🎯 Level: ".data ++ pyTitle a.professional_grade
    ++ "\n\n⚠️ Issues: ".data ++ formatListCompact a.technical_issues
    ++ "\n\n💡 Tips: ".data ++ formatListCompact a.improvement_suggestions
    ++ "\n\n🎓 Feedback: ".data ++ professionalFeedbackShort a.quality_rating

/- ### agents/master_agent.py: module-level session service and webhook -/

/-- The state held in an ADK session by `master_agent.py`: the
`conversation_history` it is created with, plus the `input_content` /
`input_type` entries the webhook writes (content abstracted to the text, or
the base64 audio payload). -/
structure ADKSessionState where
  conversationHistory : List PyStr
  inputContent : Option PyStr
  inputType : Option PyStr
deriving DecidableEq, Repr

/-- The module-level `InMemorySessionService` (master_agent.py line 32),
modelled as an association list from `(user_id, session_id)` to session
state; Python object mutation of a stored session is modelled as updating the
entry in place. -/
abbrev SessionStore := List ((PyStr × PyStr) × ADKSessionState)

/-- `session_service.get_session` for the fixed app name. -/
def lookupSession : SessionStore → PyStr → PyStr → Option ADKSessionState
  | [], _, _ => none
  | (k, s) :: rest, uid, sid =>
    if k = (uid, sid) then some s else lookupSession rest uid sid

/-- `session_service.create_session` with `state={"conversation_history": []}`. -/
def createSession (store : SessionStore) (uid sid : PyStr)
    (s : ADKSessionState) : SessionStore :=
  ((uid, sid), s) :: store

/-- The webhook's `get_or_create_session` (master_agent.py lines 62-85):
returns the stored session when one exists, else creates one with the initial
state; the Bool records whether a session was created. -/
def getOrCreateSession (store : SessionStore) (uid sid : PyStr) :
    ADKSessionState × SessionStore × Bool :=
  match lookupSession store uid sid with
  | some s => (s, store, false)
  | none =>
    let s₀ : ADKSessionState := ⟨[], none, none⟩
    (s₀, createSession store uid sid s₀, true)

/-- Update the stored session under a key (Python mutation of
`session.state`). -/
def updateSessionState (store : SessionStore) (uid sid : PyStr)
    (f : ADKSessionState → ADKSessionState) : SessionStore :=
  match store with
  | [] => []
  | (k, s) :: rest =>
    if k = (uid, sid) then (k, f s) :: rest
    else (k, s) :: updateSessionState rest uid sid f

/-- The session id derived from the sender,
`f"twilio_{sender_number.replace(':', '_').replace('+', '')}"`
(master_agent.py line 58). -/
def masterSessionId (sender : PyStr) : PyStr :=
  "twilio_".data ++
    ((sender.map (fun c => if c = ':' then '_' else c)).filter (fun c => c != '+'))

/-- The request form values `master_agent.py`'s webhook reads. `MediaUrl0` and
`MediaContentType0` default to `None`; `Body` defaults to `''` (stripped at
use); `From` defaults to `'Unknown'`. -/
structure MasterRequest where
  MediaUrl0 : Option PyStr
  MediaContentType0 : Option PyStr
  Body : PyStr
  From : PyStr
deriving DecidableEq, Repr

/-- Python truthiness of an optional string: `None` and `''` are falsy. -/
def truthyOpt (o : Option PyStr) : Bool :=
  match o with
  | some s => !s.isEmpty
  | none => false

/-- The apology the webhook's `except` branch places in the TwiML reply
(master_agent.py line 171). -/
def masterApologyMsg : PyStr :=
  "I encountered an error processing your request. Please try again later.".data

/-- The default reply when the request has neither media nor text
(master_agent.py line 137; the apostrophe is spelled via its code point). -/
def masterDefaultMsg : PyStr :=
  "Hello! I".data ++ [Char.ofNat 39] ++
    "m your Google Ask Agent. Send me a voice note for audio assessment or text message for general assistance.".data

/-- The WhatsApp-limit truncation (master_agent.py lines 161-163):
`result[:1597] + "..."` when the response exceeds 1600 characters. -/
def masterTruncate (s : PyStr) : PyStr :=
  if 1600 < s.length then s.take 1597 ++ "...".data else s

/-- `twilio_webhook` of master_agent.py (lines 43-176).  `download` is the
Twilio media download (`requests.get` + `raise_for_status`, returning the
base64-encoded bytes) and `agentRun` the ADK runner call; each either returns
or raises.  The result is the session store after the request and the list of
messages placed in the TwiML response. -/
def masterWebhook (store : SessionStore) (req : MasterRequest)
    (download : Except PyStr PyStr) (agentRun : Except PyStr PyStr) :
    SessionStore × List PyStr :=
  let uid := req.From
  let sid := masterSessionId req.From
  let (_sess, store₁, _created) := getOrCreateSession store uid sid
  if truthyOpt req.MediaUrl0 && truthyOpt req.MediaContentType0 then
    match download with
    | .error _ => (store₁, [masterApologyMsg])
    | .ok audioB64 =>
      let store₂ := updateSessionState store₁ uid sid (fun s =>
        { s with inputContent := some audioB64, inputType := some "audio".data })
      match agentRun with
      | .error _ => (store₂, [masterApologyMsg])
      | .ok r => (store₂, [masterTruncate r])
  else if !(pyStrip req.Body).isEmpty then
    let store₂ := updateSessionState store₁ uid sid (fun s =>
      { s with inputContent := some (pyStrip req.Body),
               inputType := some "text".data })
    match agentRun with
    | .error _ => (store₂, [masterApologyMsg])
    | .ok r => (store₂, [masterTruncate r])
  else (store₁, [masterDefaultMsg])

/- ### whatsapp_app.py: webhook classification and handlers -/

/-- The Twilio form fields `whatsapp_app.py`'s webhook reads (each defaults to
`''`). -/
structure TwilioRequest where
  From : PyStr
  Body : PyStr
  MediaUrl0 : PyStr
  MediaContentType0 : PyStr
  NumMedia : PyStr
deriving DecidableEq, Repr

/-- A dispatched handler's downstream work (Master-Agent calls, downloads,
sub-agent execution), abstracted as the messages it sends before either
finishing or raising the recorded exception. -/
structure HandlerSteps where
  sent : List PyStr
  exn : Option PyStr
deriving DecidableEq, Repr

/-- Which branch of the webhook a message form reaches. -/
inductive MsgDispatch
  | text
  | image
  | voice
  | unsupportedMedia
deriving DecidableEq, Repr

/-- The classification nest of `handle_twilio_webhook` (whatsapp_app.py lines
248-259): media with a URL goes by content type, everything else is text. -/
def classifyMessage (numMedia : Int) (mediaUrl contentType : PyStr) :
    MsgDispatch :=
  if 0 < numMedia ∧ ¬ mediaUrl = [] then
    if "image/".data.isPrefixOf contentType then .image
    else if "audio/".data.isPrefixOf contentType then .voice
    else .unsupportedMedia
  else .text

/-- The notice sent for media that is neither image nor audio
(whatsapp_app.py line 256). -/
def unsupportedMediaMsg : PyStr :=
  "📱 I can process text messages, images, and voice messages for skill assessments.".data

/-- The apology of `handle_text_message`'s `except` branch (whatsapp_app.py
line 292). -/
def textErrorApology : PyStr :=
  "❌ I encountered an error. Please try again or send me an image/voice message of your work! 📸🎤".data

/-- The status message opening `handle_voice_message`. -/
def voiceStatusMsg : PyStr :=
  "🎤 Processing your voice message with native audio analysis...".data

/-- The apology of `handle_voice_message`'s `except` branch (whatsapp_app.py
line 332), which interpolates `str(e)`. -/
def voiceErrorApology (e : PyStr) : PyStr :=
  "❌ An error occurred with native audio analysis: ".data ++ e ++
    ". Please try again.".data

/-- The status message opening `handle_image_message`. -/
def imageStatusMsg : PyStr := "📥 Downloading your image...".data

/-- The apology of `handle_image_message`'s `except` branch (whatsapp_app.py
line 371). -/
def imageErrorApology (e : PyStr) : PyStr :=
  "❌ Master Agent error: ".data ++ e ++ ". Please try again.".data

/-- `handle_text_message` (whatsapp_app.py lines 274-292): the try body's
sends, then the constant apology if the body raised. -/
def handleTextMessageMsgs (steps : HandlerSteps) : List PyStr :=
  steps.sent ++ (match steps.exn with
    | none => []
    | some _ => [textErrorApology])

/-- `handle_voice_message` (whatsapp_app.py lines 294-335). -/
def handleVoiceMessageMsgs (steps : HandlerSteps) : List PyStr :=
  voiceStatusMsg :: steps.sent ++ (match steps.exn with
    | none => []
    | some e => [voiceErrorApology e])

/-- `handle_image_message` (whatsapp_app.py lines 337-371). -/
def handleImageMessageMsgs (steps : HandlerSteps) : List PyStr :=
  imageStatusMsg :: steps.sent ++ (match steps.exn with
    | none => []
    | some e => [imageErrorApology e])

/-- `str(MessagingResponse())`: the empty TwiML document both `return`
statements of the webhook produce. -/
def twimlEmptyResponse : PyStr :=
  "<?xml version=\"1.0\" encoding=\"UTF-8\"?><Response />".data

/-- Messages produced by the branch a request is dispatched to. -/
def dispatchMessages (d : MsgDispatch) (t i v : HandlerSteps) : List PyStr :=
  match d with
  | .text => handleTextMessageMsgs t
  | .image => handleImageMessageMsgs i
  | .voice => handleVoiceMessageMsgs v
  | .unsupportedMedia => [unsupportedMediaMsg]

/-- `handle_twilio_webhook` of whatsapp_app.py (lines 230-268): parse
`NumMedia` (whose `int(...)` may raise, reaching the outer `except`, which
returns the empty TwiML and sends nothing), classify, dispatch, and return
the TwiML response.  The result is (messages sent via the REST API, TwiML
body). -/
def handleTwilioWebhook (req : TwilioRequest) (t i v : HandlerSteps) :
    List PyStr × PyStr :=
  match pyInt? req.NumMedia with
  | none => ([], twimlEmptyResponse)
  | some n =>
    (dispatchMessages (classifyMessage n req.MediaUrl0 req.MediaContentType0)
      t i v, twimlEmptyResponse)

/- ### main.py: `Application.run_full_assessment` -/

/-- A sub-agent instruction of the Master Agent's plan: the keys
`run_full_assessment` reads. -/
structure SubInstruction where
  agent_name : Option PyStr
  task_context : Option TaskContext
deriving DecidableEq, Repr

/-- The Master Agent's plan as `run_full_assessment` consumes it. -/
structure AssessmentPlan where
  response_to_user : Option PyStr
  sub_agent_instructions : Option (List SubInstruction)
deriving DecidableEq, Repr

/-- One collected entry of `sub_agent_results` (main.py lines 80-84); the
result payload type is abstract. -/
structure SubAgentRun (ρ : Type) where
  agent_name : Option PyStr
  skill_assessed : Option PyStr
  result : ρ
deriving DecidableEq, Repr

/-- The external calls `run_full_assessment` makes, in order. -/
inductive AssessmentEvent (ρ : Type)
  | getPlan
  | execInstr (instr : SubInstruction)
  | getFinalVerdict (role : PyStr) (results : List (SubAgentRun ρ))
deriving DecidableEq, Repr

/-- `Application.run_full_assessment` (main.py lines 60-98) as the trace of
its external calls, given the plan the single `get_plan` call returns and an
oracle `exec` for `execute_sub_agent_instruction`: `if not instructions:
return` stops after planning when the instruction list is absent or empty;
otherwise each instruction runs once in order, and `get_final_verdict` is
called once unless the first instruction's `role` is absent or empty
(`if not target_role: return`). -/
def runFullAssessment {ρ : Type} (plan : AssessmentPlan)
    (exec : SubInstruction → ρ) : List (AssessmentEvent ρ) :=
  AssessmentEvent.getPlan ::
    match plan.sub_agent_instructions with
    | none => []
    | some [] => []
    | some (i₀ :: rest) =>
      let instrs := i₀ :: rest
      let results := instrs.map (fun ins =>
        ({ agent_name := ins.agent_name
           skill_assessed := (ins.task_context.getD emptyTaskContext).skill_to_assess
           result := exec ins } : SubAgentRun ρ))
      instrs.map AssessmentEvent.execInstr ++
        match (i₀.task_context.getD emptyTaskContext).role with
        | none => []
        | some r => if r = [] then [] else [AssessmentEvent.getFinalVerdict r results]

/- ### Helper lemmas -/

/-- Python `replace` with the empty replacement leaves a string unchanged when
the pattern occurs nowhere in it (worker version, fuel-generic). -/
theorem replaceWhatsappEmptyAux_of_not_infix :
    ∀ (fuel : Nat) (l : List Char), ¬ ("whatsapp:".data <:+: l) →
      replaceWhatsappEmptyAux fuel l = l := by
  intro fuel
  induction fuel with
  | zero => intro l _; rfl
  | succ f ih =>
    intro l hnot
    cases l with
    | nil => rfl
    | cons c cs =>
      have hpre : "whatsapp:".data.isPrefixOf (c :: cs) = false := by
        cases h : "whatsapp:".data.isPrefixOf (c :: cs) with
        | false => rfl
        | true => exact absurd (List.isPrefixOf_iff_prefix.mp h).isInfix hnot
      have hcs : ¬ ("whatsapp:".data <:+: cs) := fun h => hnot (List.infix_cons h)
      simp [replaceWhatsappEmptyAux, hpre, ih cs hcs]

/-- Stripping `whatsapp:` from a string that starts with it and otherwise
avoids it returns the bare remainder. -/
theorem replaceWhatsappEmpty_append (b : List Char)
    (h : ¬ ("whatsapp:".data <:+: b)) :
    replaceWhatsappEmpty ("whatsapp:".data ++ b) = b := by
  have hpre : ("whatsapp:".data).isPrefixOf
      ('w' :: (['h', 'a', 't', 's', 'a', 'p', 'p', ':'] ++ b)) = true :=
    List.isPrefixOf_iff_prefix.mpr ⟨b, rfl⟩
  show replaceWhatsappEmptyAux ("whatsapp:".data ++ b).length
    ("whatsapp:".data ++ b) = b
  have hlen : ("whatsapp:".data ++ b).length = b.length + 9 := by
    simp [List.length_append]
  rw [hlen]
  show replaceWhatsappEmptyAux (b.length + 8 + 1)
    ('w' :: (['h', 'a', 't', 's', 'a', 'p', 'p', ':'] ++ b)) = b
  rw [replaceWhatsappEmptyAux, if_pos hpre]
  show replaceWhatsappEmptyAux (b.length + 8) b = b
  exact replaceWhatsappEmptyAux_of_not_infix _ b h

/- ### C1 -/

/-- C1 counterexample: the claim says the codebase never computes a pass/fail
(or `pass_fail_raw`) value and only relays the model's.  But
`_parse_fallback_response` maps two model responses that contain no verdict
token at all to different `pass_fail` values, computed from the extracted
rating; and `_simulate_enhanced_assessment` computes `pass_fail_raw` from the
requested role alone. -/
theorem C1_counterexample :
    (parseFallbackResponse "rating: 9".data).pass_fail = "pass".data
    ∧ (parseFallbackResponse "rating: 2".data).pass_fail = "fail".data
    ∧ ¬ ("pass".data <:+: pyLower "rating: 9".data)
    ∧ ¬ ("fail".data <:+: pyLower "rating: 2".data)
    ∧ (simulateEnhancedAssessment ⟨none, some "Chef".data, none⟩).pass_fail_raw
        = "Fail".data
    ∧ (simulateEnhancedAssessment ⟨none, some "Tailor".data, none⟩).pass_fail_raw
        = "Pass".data := by
  refine ⟨by decide, by decide, by decide, by decide, by decide, by decide⟩

/-- C1 (amended): on the primary path `analyze_stitching` relays the model's
parsed verdict unchanged, but every fallback computes pass/fail in the
codebase itself: the textual fallback parser sets `pass_fail` from the
extracted rating (`fail` iff below 7), the error path hardcodes `fail`, and
both simulated sub-agent assessments set `pass_fail_raw` to `Pass` exactly
when the role is `Tailor`. -/
theorem C1_pass_fail_computation (d : AssessDict) (raw txt : PyStr)
    (ctx : TaskContext) :
    analyzeStitchingResult (some d) raw = d
    ∧ analyzeStitchingResult none txt = parseFallbackResponse txt
    ∧ (parseFallbackResponse txt).pass_fail
        = (if (parseFallbackResponse txt).quality_rating < 7
           then "fail".data else "pass".data)
    ∧ analyzeStitchingErrorDict.pass_fail = "fail".data
    ∧ (simulateEnhancedAssessment ctx).pass_fail_raw
        = (if ctx.role.getD "Tailor".data = "Tailor".data
           then "Pass".data else "Fail".data)
    ∧ (simulateBasicAssessment ctx).pass_fail_raw
        = (if ctx.role.getD "Tailor".data = "Tailor".data
           then "Pass".data else "Fail".data) := by
  refine ⟨rfl, rfl, rfl, rfl, rfl, rfl⟩

/- ### C9 -/

/-- C9 counterexample: the round-trip law fails for a bare number that
contains `whatsapp:` in its interior, because the webhook's
`replace('whatsapp:', '')` removes every occurrence, not only the leading
prefix. -/
theorem C9_counterexample :
    "whatsapp:".data.isPrefixOf "+1whatsapp:2".data = false
    ∧ replaceWhatsappEmpty (whatsappPrefixNumber "+1whatsapp:2".data)
        = "+12".data
    ∧ replaceWhatsappEmpty (whatsappPrefixNumber "+1whatsapp:2".data)
        ≠ "+1whatsapp:2".data := by
  refine ⟨by decide, by decide, by decide⟩

/-- C9 (amended): the recipient built by `send_message` always starts with
`whatsapp:`, the prefixing is idempotent and leaves already-prefixed numbers
unchanged, and prefixing-then-stripping returns the original bare number
provided the number does not itself contain `whatsapp:` anywhere (the
webhook's `replace` removes every occurrence). -/
theorem C9_prefix_roundtrip (toNumber : PyStr) :
    "whatsapp:".data.isPrefixOf (whatsappPrefixNumber toNumber) = true
    ∧ ("whatsapp:".data.isPrefixOf toNumber = true →
        whatsappPrefixNumber toNumber = toNumber)
    ∧ whatsappPrefixNumber (whatsappPrefixNumber toNumber)
        = whatsappPrefixNumber toNumber
    ∧ (¬ ("whatsapp:".data <:+: toNumber) →
        replaceWhatsappEmpty (whatsappPrefixNumber toNumber) = toNumber) := by
  refine ⟨?_, ?_, ?_, ?_⟩
  · unfold whatsappPrefixNumber
    split
    · assumption
    · exact List.isPrefixOf_iff_prefix.mpr (List.prefix_append _ _)
  · intro h; simp [whatsappPrefixNumber, h]
  · unfold whatsappPrefixNumber
    split
    · simp [*]
    · simp [List.isPrefixOf_iff_prefix.mpr (List.prefix_append _ _)]
  · intro h
    have hpre : "whatsapp:".data.isPrefixOf toNumber = false := by
      cases hp : "whatsapp:".data.isPrefixOf toNumber with
      | false => rfl
      | true => exact absurd (List.isPrefixOf_iff_prefix.mp hp).isInfix h
    simp only [whatsappPrefixNumber, hpre, Bool.false_eq_true, if_false]
    exact replaceWhatsappEmpty_append toNumber h

/- ### C8 -/

/-- The regex cannot match at the end of the text. -/
theorem ratingMatchAt_nil : ratingMatchAt [] = none := by decide

/-- `re.search` characterised: it returns the capture of the unique leftmost
matching position. -/
theorem reSearchRating_eq_some_iff :
    ∀ (cs : List Char) (n : Nat),
      reSearchRating cs = some n ↔
        ∃ i, ratingMatchAt (cs.drop i) = some n
          ∧ ∀ j, j < i → ratingMatchAt (cs.drop j) = none := by
  intro cs
  induction cs with
  | nil =>
    intro n
    constructor
    · intro h; simp [reSearchRating] at h
    · rintro ⟨i, hi, _⟩
      rw [List.drop_nil, ratingMatchAt_nil] at hi
      cases hi
  | cons c cs ih =>
    intro n
    cases h : ratingMatchAt (c :: cs) with
    | some m =>
      constructor
      · intro hr
        simp only [reSearchRating, h] at hr
        refine ⟨0, ?_, fun j hj => absurd hj (Nat.not_lt_zero j)⟩
        rw [List.drop_zero, h, hr]
      · rintro ⟨i, hi, hmin⟩
        cases i with
        | zero =>
          rw [List.drop_zero, h] at hi
          simp only [reSearchRating, h]
          exact hi
        | succ k =>
          have h0 := hmin 0 (Nat.succ_pos k)
          rw [List.drop_zero, h] at h0
          cases h0
    | none =>
      have base : reSearchRating (c :: cs) = reSearchRating cs := by
        simp [reSearchRating, h]
      rw [base, ih n]
      constructor
      · rintro ⟨i, hi, hmin⟩
        refine ⟨i + 1, ?_, ?_⟩
        · simpa using hi
        · intro j hj
          cases j with
          | zero => simpa using h
          | succ k => simpa using hmin k (by omega)
      · rintro ⟨i, hi, hmin⟩
        cases i with
        | zero => rw [List.drop_zero, h] at hi; cases hi
        | succ k =>
          refine ⟨k, ?_, ?_⟩
          · simpa using hi
          · intro j hj; simpa using hmin (j + 1) (by omega)

/-- C8 counterexample: the claim reads the rating as "the first integer
following the word 'rating'", which on `"rating is 9"` is 9; the code's regex
`rating[:\s]*(\d+)` requires the digits to follow immediately after optional
colons/whitespace, fails to match here, and so defaults to 5 (and hence
`fail`). -/
theorem C8_counterexample :
    firstIntegerAfterRating "rating is 9".data = some 9
    ∧ reSearchRating "rating is 9".data = none
    ∧ (parseFallbackResponse "rating is 9".data).quality_rating = 5
    ∧ (parseFallbackResponse "rating is 9".data).pass_fail = "fail".data := by
  refine ⟨by decide, by decide, by decide, by decide⟩

/-- C8 (amended): `_parse_fallback_response` returns as `quality_rating` the
integer whose digits immediately follow the leftmost case-insensitive
occurrence of `rating` after an optional run of colons/whitespace (the
capture of `rating[:\s]*(\d+)` at its leftmost matching position), defaulting
to 5 when the pattern matches nowhere; and `pass_fail` is `'pass'` if and
only if that rating is at least 7. -/
theorem C8_fallback_semantics (cs : PyStr) :
    (parseFallbackResponse cs).quality_rating
        = (match reSearchRating cs with
           | some n => (n : Int)
           | none => 5)
    ∧ ((parseFallbackResponse cs).pass_fail = "pass".data
        ↔ 7 ≤ (parseFallbackResponse cs).quality_rating)
    ∧ (∀ n, reSearchRating cs = some n ↔
        ∃ i, ratingMatchAt (cs.drop i) = some n
          ∧ ∀ j, j < i → ratingMatchAt (cs.drop j) = none) := by
  refine ⟨rfl, ?_, fun n => reSearchRating_eq_some_iff cs n⟩
  have hpf : (parseFallbackResponse cs).pass_fail
      = (if (parseFallbackResponse cs).quality_rating < 7
         then "fail".data else "pass".data) := rfl
  rw [hpf]
  split
  · exact iff_of_false (by decide) (by omega)
  · exact iff_of_true rfl (by omega)

/- ### C6 -/

/-- C6 (confirmed): the report string forwarded by `send_assessment_report`
is exactly the template in which the rating appears as `<rating>/10`,
`pass_fail` appears uppercased and is preceded by the check mark exactly when
it lowercases to `pass` (the cross otherwise), stitch type and professional
grade appear title-cased, and each list is rendered by
`_format_list_compact`, which yields `None` for an empty list and otherwise
its first two items joined by `' | '`. -/
theorem C6_report_format (a : StitchingAssessment) :
    sendAssessmentReportText a =
      "🧵 STITCHING ASSESSMENT 🧵\n\n".data
        ++ ratingEmojiFor a.quality_rating
        ++ " Rating: ".data ++ pyIntRepr a.quality_rating ++ "/10\n".data
        ++ (if pyLower a.pass_fail = "pass".data then "✅".data else "❌".data)
        ++ " Result: ".data ++ pyUpper a.pass_fail
        ++ "\n📏 Type: ".data ++ pyTitle a.stitch_type
        ++ "\n🎯 Level: ".data ++ pyTitle a.professional_grade
        ++ "\n\n⚠️ Issues: ".data ++ formatListCompact a.technical_issues
        ++ "\n\n💡 Tips: ".data ++ formatListCompact a.improvement_suggestions
        ++ "\n\n🎓 Feedback: ".data ++ professionalFeedbackShort a.quality_rating
    ∧ formatListCompact [] = "None".data
    ∧ (∀ x : PyStr, formatListCompact [x] = x)
    ∧ (∀ (x y : PyStr) (rest : List PyStr),
        formatListCompact (x :: y :: rest) = x ++ " | ".data ++ y) := by
  refine ⟨rfl, rfl, ?_, ?_⟩
  · intro x
    simp [formatListCompact, List.intercalate, List.intersperse]
  · intro x y rest
    simp [formatListCompact, List.intercalate, List.intersperse]

/- ### C7 -/

/-- C7 (confirmed): the WhatsApp-limit truncation in `twilio_webhook` leaves
responses of at most 1600 characters unchanged and maps a longer response to
its first 1597 characters followed by `...`, of length exactly 1600; the
truncated string is what the webhook places in the TwiML reply in both the
media and the text branch. -/
theorem C7_truncation (s : PyStr) (store : SessionStore) (req : MasterRequest)
    (a r : PyStr) :
    (masterTruncate s).length = min s.length 1600
    ∧ (s.length ≤ 1600 → masterTruncate s = s)
    ∧ (1600 < s.length →
        masterTruncate s = s.take 1597 ++ "...".data
          ∧ (masterTruncate s).length = 1600)
    ∧ ((truthyOpt req.MediaUrl0 && truthyOpt req.MediaContentType0) = true →
        (masterWebhook store req (.ok a) (.ok r)).2 = [masterTruncate r])
    ∧ ((truthyOpt req.MediaUrl0 && truthyOpt req.MediaContentType0) = false →
        (pyStrip req.Body).isEmpty = false →
        (masterWebhook store req (.ok a) (.ok r)).2 = [masterTruncate r]) := by
  refine ⟨?_, ?_, ?_, ?_, ?_⟩
  · unfold masterTruncate
    split
    · simp only [List.length_append, List.length_take, List.length_cons,
        List.length_nil]
      omega
    · omega
  · intro h
    have : ¬ 1600 < s.length := by omega
    simp [masterTruncate, this]
  · intro h
    have he : masterTruncate s = s.take 1597 ++ "...".data := by
      simp [masterTruncate, h]
    refine ⟨he, ?_⟩
    rw [he]
    simp only [List.length_append, List.length_take, List.length_cons,
      List.length_nil]
    omega
  · intro hm
    rcases hg : getOrCreateSession store req.From (masterSessionId req.From)
      with ⟨sess, store₁, created⟩
    simp [masterWebhook, hg, hm]
  · intro hm hb
    rcases hg : getOrCreateSession store req.From (masterSessionId req.From)
      with ⟨sess, store₁, created⟩
    simp [masterWebhook, hg, hm, hb]

/- ### C2 -/

/-- Looking up the key just created finds the created session. -/
theorem lookupSession_createSession_self (store : SessionStore)
    (uid sid : PyStr) (s : ADKSessionState) :
    lookupSession (createSession store uid sid s) uid sid = some s := by
  simp [createSession, lookupSession]

/-- Updating a session's state never changes which keys are present. -/
theorem lookupSession_updateSessionState_isSome (store : SessionStore)
    (uid sid uid' sid' : PyStr) (f : ADKSessionState → ADKSessionState) :
    (lookupSession (updateSessionState store uid sid f) uid' sid').isSome
      = (lookupSession store uid' sid').isSome := by
  induction store with
  | nil => rfl
  | cons e rest ih =>
    obtain ⟨k, s⟩ := e
    by_cases hk : k = (uid, sid) <;> by_cases hk' : k = (uid', sid') <;>
      simp_all [updateSessionState, lookupSession] <;>
      split_ifs <;> simp_all [lookupSession]

/-- After `masterWebhook` handles any request, the session keyed by the
sender is present in the module-level store. -/
theorem masterWebhook_session_present (store : SessionStore)
    (req : MasterRequest) (download agentRun : Except PyStr PyStr) :
    (lookupSession ((masterWebhook store req download agentRun).1)
      req.From (masterSessionId req.From)).isSome = true := by
  have hstore₁ : (lookupSession
      ((getOrCreateSession store req.From (masterSessionId req.From)).2.1)
      req.From (masterSessionId req.From)).isSome = true := by
    unfold getOrCreateSession
    cases h : lookupSession store req.From (masterSessionId req.From) with
    | some s => simp [h]
    | none => simp [h, lookupSession_createSession_self]
  rcases hg : getOrCreateSession store req.From (masterSessionId req.From)
    with ⟨sess, store₁, created⟩
  rw [hg] at hstore₁
  simp only at hstore₁
  simp only [masterWebhook, hg]
  split
  · cases download with
    | error e => simpa using hstore₁
    | ok a =>
      cases agentRun with
      | error e =>
        simpa [lookupSession_updateSessionState_isSome] using hstore₁
      | ok r =>
        simpa [lookupSession_updateSessionState_isSome] using hstore₁
  · split
    · cases agentRun with
      | error e =>
        simpa [lookupSession_updateSessionState_isSome] using hstore₁
      | ok r =>
        simpa [lookupSession_updateSessionState_isSome] using hstore₁
    · simpa using hstore₁

/-- C2 counterexample: the claim says nothing written while handling one
webhook request is observable while handling a later one.  But after
`master_agent.py` handles a first text message from a sender, the
module-level store holds a session for that sender carrying the written
`input_content`/`input_type`; a second request from the same sender finds it
(`get_or_create_session` returns the stored session without creating a new
one). -/
theorem C2_counterexample :
    lookupSession ([] : SessionStore) "whatsapp:+15551234567".data
        (masterSessionId "whatsapp:+15551234567".data) = none
    ∧ lookupSession
        ((masterWebhook [] ⟨none, none, "hi".data, "whatsapp:+15551234567".data⟩
          (.ok "".data) (.ok "ok".data)).1)
        "whatsapp:+15551234567".data
        (masterSessionId "whatsapp:+15551234567".data)
        = some ⟨[], some "hi".data, some "text".data⟩
    ∧ (getOrCreateSession
        ((masterWebhook [] ⟨none, none, "hi".data, "whatsapp:+15551234567".data⟩
          (.ok "".data) (.ok "ok".data)).1)
        "whatsapp:+15551234567".data
        (masterSessionId "whatsapp:+15551234567".data)).2.2 = false := by
  refine ⟨by decide, by decide, by decide⟩

/-- C2 (amended): `agent.py` and `whatsapp_app.py` keep no state across
webhook invocations, but `master_agent.py` holds a module-level in-memory
session service that does persist: every handled request leaves a session
stored under the sender's key, a later request whose key is already stored
retrieves that stored session unchanged instead of creating a fresh one, and
a session is created exactly when the key is absent. -/
theorem C2_session_persistence (store : SessionStore) (req : MasterRequest)
    (download agentRun : Except PyStr PyStr) :
    (lookupSession ((masterWebhook store req download agentRun).1)
        req.From (masterSessionId req.From)).isSome = true
    ∧ (∀ s, lookupSession store req.From (masterSessionId req.From) = some s →
        getOrCreateSession store req.From (masterSessionId req.From)
          = (s, store, false))
    ∧ (lookupSession store req.From (masterSessionId req.From) = none →
        (getOrCreateSession store req.From (masterSessionId req.From)).2.2
          = true) := by
  refine ⟨masterWebhook_session_present store req download agentRun, ?_, ?_⟩
  · intro s h; simp [getOrCreateSession, h]
  · intro h; simp [getOrCreateSession, h]

/- ### C3 -/

/-- C3 counterexample: a request whose `NumMedia` form field is not numeric
makes `int(...)` raise inside the webhook's `try`; the handler still returns
the well-formed empty TwiML, but—contrary to the claim—no apology (indeed no
message at all) is emitted to the user. -/
theorem C3_counterexample :
    pyInt? "one".data = none
    ∧ handleTwilioWebhook
        ⟨"whatsapp:+15550001111".data, "hello".data, [], [], "one".data⟩
        ⟨[], none⟩ ⟨[], none⟩ ⟨[], none⟩
        = ([], twimlEmptyResponse) := by
  refine ⟨by decide, by decide⟩

/-- C3 (amended): every webhook invocation returns the well-formed TwiML
response, whatever exceptions occur.  An exception raised inside a dispatched
message handler (the downstream SDK calls) does produce an apology: the text,
image and voice handlers send their apology via the REST API, and
`master_agent.py` places its apology in the TwiML reply whether the download
or the agent run raises.  But an exception raised before dispatch (a
non-numeric `NumMedia`) is swallowed by the top-level `except` with no
apology sent at all. -/
theorem C3_exception_handling (req : TwilioRequest) (t i v : HandlerSteps)
    (store : SessionStore) (mreq : MasterRequest)
    (download agentRun : Except PyStr PyStr) :
    (handleTwilioWebhook req t i v).2 = twimlEmptyResponse
    ∧ (pyInt? req.NumMedia = none → (handleTwilioWebhook req t i v).1 = [])
    ∧ (∀ n e, pyInt? req.NumMedia = some n →
        classifyMessage n req.MediaUrl0 req.MediaContentType0 = .text →
        t.exn = some e →
        textErrorApology ∈ (handleTwilioWebhook req t i v).1)
    ∧ (∀ n e, pyInt? req.NumMedia = some n →
        classifyMessage n req.MediaUrl0 req.MediaContentType0 = .image →
        i.exn = some e →
        imageErrorApology e ∈ (handleTwilioWebhook req t i v).1)
    ∧ (∀ n e, pyInt? req.NumMedia = some n →
        classifyMessage n req.MediaUrl0 req.MediaContentType0 = .voice →
        v.exn = some e →
        voiceErrorApology e ∈ (handleTwilioWebhook req t i v).1)
    ∧ (∀ e, (truthyOpt mreq.MediaUrl0 && truthyOpt mreq.MediaContentType0) = true →
        download = .error e →
        (masterWebhook store mreq download agentRun).2 = [masterApologyMsg])
    ∧ (∀ a e, (truthyOpt mreq.MediaUrl0 && truthyOpt mreq.MediaContentType0) = true →
        download = .ok a → agentRun = .error e →
        (masterWebhook store mreq download agentRun).2 = [masterApologyMsg])
    ∧ (∀ e, (truthyOpt mreq.MediaUrl0 && truthyOpt mreq.MediaContentType0) = false →
        (pyStrip mreq.Body).isEmpty = false → agentRun = .error e →
        (masterWebhook store mreq download agentRun).2 = [masterApologyMsg]) := by
  refine ⟨?_, ?_, ?_, ?_, ?_, ?_, ?_, ?_⟩
  · cases h : pyInt? req.NumMedia <;> simp [handleTwilioWebhook, h]
  · intro h; simp [handleTwilioWebhook, h]
  · intro n e hn hc he
    simp [handleTwilioWebhook, hn, hc, dispatchMessages, handleTextMessageMsgs, he]
  · intro n e hn hc he
    simp [handleTwilioWebhook, hn, hc, dispatchMessages, handleImageMessageMsgs, he]
  · intro n e hn hc he
    simp [handleTwilioWebhook, hn, hc, dispatchMessages, handleVoiceMessageMsgs, he]
  · intro e hm hd
    rcases hg : getOrCreateSession store mreq.From (masterSessionId mreq.From)
      with ⟨sess, store₁, created⟩
    simp [masterWebhook, hg, hm, hd]
  · intro a e hm hd ha
    rcases hg : getOrCreateSession store mreq.From (masterSessionId mreq.From)
      with ⟨sess, store₁, created⟩
    simp [masterWebhook, hg, hm, hd, ha]
  · intro e hm hb ha
    rcases hg : getOrCreateSession store mreq.From (masterSessionId mreq.From)
      with ⟨sess, store₁, created⟩
    simp [masterWebhook, hg, hm, hb, ha]

/- ### C4 -/

/-- The exec-instruction events contributed by the loop hold no `getPlan`. -/
theorem countP_getPlan_map_execInstr (ρ : Type) (l : List SubInstruction) :
    (l.map (AssessmentEvent.execInstr (ρ := ρ))).countP
      (fun e => match e with | .getPlan => true | _ => false) = 0 := by
  induction l with
  | nil => rfl
  | cons x xs ih => simp [List.countP_cons, ih]

/-- The exec-instruction events contributed by the loop hold no verdict. -/
theorem countP_verdict_map_execInstr (ρ : Type) (l : List SubInstruction) :
    (l.map (AssessmentEvent.execInstr (ρ := ρ))).countP
      (fun e => match e with | .getFinalVerdict _ _ => true | _ => false) = 0 := by
  induction l with
  | nil => rfl
  | cons x xs ih => simp [List.countP_cons, ih]

/-- Extracting the executed instructions out of the loop's events recovers the
instruction list. -/
theorem filterMap_execInstr_map (ρ : Type) (l : List SubInstruction) :
    List.filterMap
      ((fun e => match e with
          | AssessmentEvent.execInstr instr => some instr
          | _ => none)
        ∘ AssessmentEvent.execInstr (ρ := ρ)) l = l := by
  induction l with
  | nil => rfl
  | cons x xs ih => simpa [List.filterMap_cons] using ih

/-- C4 counterexample: a plan with one instruction whose task context carries
no `role` makes `run_full_assessment` stop after the collection loop
(`if not target_role: return`), so—contrary to the claim—no
`get_final_verdict` call happens even though the plan contained
instructions. -/
theorem C4_counterexample :
    (⟨some "Assessing".data,
        some [⟨some "StitchingAssessorAgent".data,
          some ⟨some "stitching".data, none, none⟩⟩]⟩ : AssessmentPlan).sub_agent_instructions
      ≠ some []
    ∧ runFullAssessment (ρ := Unit)
        ⟨some "Assessing".data,
         some [⟨some "StitchingAssessorAgent".data,
           some ⟨some "stitching".data, none, none⟩⟩]⟩ (fun _ => ())
        = [.getPlan, .execInstr ⟨some "StitchingAssessorAgent".data,
            some ⟨some "stitching".data, none, none⟩⟩]
    ∧ (runFullAssessment (ρ := Unit)
        ⟨some "Assessing".data,
         some [⟨some "StitchingAssessorAgent".data,
           some ⟨some "stitching".data, none, none⟩⟩]⟩ (fun _ => ())).countP
        (fun e => match e with | .getFinalVerdict _ _ => true | _ => false) = 0 := by
  refine ⟨by decide, by decide, by decide⟩

/-- C4 (amended): `run_full_assessment` is a fixed linear pipeline with no
retry: one `get_plan` call, then each planned instruction executed exactly
once in list order, then at most one `get_final_verdict` call on the
collected results; it stops after planning when the instruction list is
absent or empty, and—additionally to the claim—it also stops after the
collection loop, without a verdict call, when the first instruction's `role`
is absent or empty. -/
theorem C4_pipeline_structure (ρ : Type) (plan : AssessmentPlan)
    (exec : SubInstruction → ρ) :
    (runFullAssessment plan exec).countP
        (fun e => match e with | .getPlan => true | _ => false) = 1
    ∧ (runFullAssessment plan exec).filterMap
        (fun e => match e with | .execInstr instr => some instr | _ => none)
        = plan.sub_agent_instructions.getD []
    ∧ (runFullAssessment plan exec).countP
        (fun e => match e with | .getFinalVerdict _ _ => true | _ => false)
        = (match plan.sub_agent_instructions with
           | none => 0
           | some [] => 0
           | some (i₀ :: _) =>
             match (i₀.task_context.getD emptyTaskContext).role with
             | none => 0
             | some r => if r = [] then 0 else 1)
    ∧ (plan.sub_agent_instructions.getD [] = [] →
        runFullAssessment plan exec = [.getPlan])
    ∧ (∀ i₀ rest r, plan.sub_agent_instructions = some (i₀ :: rest) →
        (i₀.task_context.getD emptyTaskContext).role = some r → ¬ r = [] →
        runFullAssessment plan exec
          = .getPlan :: ((i₀ :: rest).map .execInstr
              ++ [.getFinalVerdict r ((i₀ :: rest).map (fun ins =>
                    ⟨ins.agent_name,
                     (ins.task_context.getD emptyTaskContext).skill_to_assess,
                     exec ins⟩))])) := by
  refine ⟨?_, ?_, ?_, ?_, ?_⟩
  · cases hp : plan.sub_agent_instructions with
    | none => simp [runFullAssessment, hp, List.countP_cons]
    | some l =>
      cases l with
      | nil => simp [runFullAssessment, hp, List.countP_cons]
      | cons i₀ rest =>
        cases hr : (i₀.task_context.getD emptyTaskContext).role with
        | none =>
          simp [runFullAssessment, hp, hr, List.countP_cons,
            countP_getPlan_map_execInstr]
        | some r =>
          by_cases hre : r = [] <;>
            simp [runFullAssessment, hp, hr, hre, List.countP_cons,
              List.countP_append, countP_getPlan_map_execInstr]
  · cases hp : plan.sub_agent_instructions with
    | none => simp [runFullAssessment, hp]
    | some l =>
      cases l with
      | nil => simp [runFullAssessment, hp]
      | cons i₀ rest =>
        cases hr : (i₀.task_context.getD emptyTaskContext).role with
        | none =>
          simp [runFullAssessment, hp, hr, List.filterMap_cons,
            filterMap_execInstr_map, Function.comp]
        | some r =>
          by_cases hre : r = [] <;>
            simp [runFullAssessment, hp, hr, hre, List.filterMap_cons,
              List.filterMap_append, filterMap_execInstr_map, Function.comp]
  · cases hp : plan.sub_agent_instructions with
    | none => simp [runFullAssessment, hp, List.countP_cons]
    | some l =>
      cases l with
      | nil => simp [runFullAssessment, hp, List.countP_cons]
      | cons i₀ rest =>
        cases hr : (i₀.task_context.getD emptyTaskContext).role with
        | none =>
          simp [runFullAssessment, hp, hr, List.countP_cons,
            countP_verdict_map_execInstr]
        | some r =>
          by_cases hre : r = [] <;>
            simp [runFullAssessment, hp, hr, hre, List.countP_cons,
              List.countP_append, countP_verdict_map_execInstr]
  · intro h
    cases hp : plan.sub_agent_instructions with
    | none => simp [runFullAssessment, hp]
    | some l =>
      rw [hp] at h
      simp only [Option.getD_some] at h
      subst h
      simp [runFullAssessment, hp]
  · intro i₀ rest r hp hr hre
    simp [runFullAssessment, hp, hr, hre]

/- ### C5 -/

/-- C5 counterexample: media whose content type is neither `image/...` nor
`audio/...` (here `video/mp4`) is not dispatched to any of the three
handlers: the webhook sends the unsupported-media notice instead of handling
the body as text, as the claim would require. -/
theorem C5_counterexample :
    pyInt? "1".data = some 1
    ∧ classifyMessage 1 "https://api.twilio.example/media/0".data
        "video/mp4".data = .unsupportedMedia
    ∧ (handleTwilioWebhook
        ⟨"whatsapp:+1".data, [], "https://api.twilio.example/media/0".data,
         "video/mp4".data, "1".data⟩
        ⟨[], none⟩ ⟨[], none⟩ ⟨[], none⟩).1
        = [unsupportedMediaMsg] := by
  refine ⟨by decide, by decide, by decide⟩

/-- C5 (amended): every well-formed webhook form POST is classified into
exactly one of four branches and handled by it, after which the TwiML reply
is returned: media (`NumMedia > 0` with a media URL) goes to the image
handler when the content type starts with `image/`, to the voice handler
when it starts with `audio/`, and to an unsupported-media notice (no
handler) otherwise; everything without media is handled as text. -/
theorem C5_classification (req : TwilioRequest) (t i v : HandlerSteps)
    (n : Int) (url ct : PyStr) :
    (handleTwilioWebhook req t i v).2 = twimlEmptyResponse
    ∧ (∀ m, pyInt? req.NumMedia = some m →
        (handleTwilioWebhook req t i v).1
          = dispatchMessages
              (classifyMessage m req.MediaUrl0 req.MediaContentType0) t i v)
    ∧ (classifyMessage n url ct = .image ↔
        0 < n ∧ url ≠ [] ∧ "image/".data <+: ct)
    ∧ (classifyMessage n url ct = .voice ↔
        0 < n ∧ url ≠ [] ∧ ¬ ("image/".data <+: ct)
          ∧ "audio/".data <+: ct)
    ∧ (classifyMessage n url ct = .unsupportedMedia ↔
        0 < n ∧ url ≠ [] ∧ ¬ ("image/".data <+: ct)
          ∧ ¬ ("audio/".data <+: ct))
    ∧ (classifyMessage n url ct = .text ↔ ¬ (0 < n ∧ url ≠ [])) := by
  refine ⟨?_, ?_, ?_, ?_, ?_, ?_⟩
  · cases h : pyInt? req.NumMedia <;> simp [handleTwilioWebhook, h]
  · intro m hm; simp [handleTwilioWebhook, hm]
  all_goals
    simp only [classifyMessage]
    split_ifs with h1 h2 h3 <;> simp_all
